import Mathlib

/-!
Shallow embedding of the ONVIF events client (`events.ts`): topic
classification, event extractors, subscription session operations and the
polling loop, together with theorems checking the specification's claims
against these definitions.

Conventions of the embedding:
* timestamps are milliseconds since epoch as `Int` (JS `Date.getTime()`);
* the retry delay is a `Rat` (JS numbers; all values reached by the
  backoff recurrence 10 * 1.5^n capped at 120000 are exact dyadic
  rationals, so `Rat` is a faithful model);
* XML simple-item values reaching the extractors are either strings or
  booleans (`JsValue`); the JS comparisons `=== true`, `=== 'true'`,
  `=== '1'` and the conversion `String(v)` are modelled exactly;
* network calls are oracles (`NetResult`): the environment supplies the
  decoded response or the thrown error, and the state transition is the
  translation of the surrounding code.
-/

namespace Onvif

/-- JS `toLowerCase` on the ASCII range (topics and item names are ASCII). -/
def lcChar (c : Char) : Char :=
  if 65 ≤ c.toNat ∧ c.toNat ≤ 90 then Char.ofNat (c.toNat + 32) else c

/-- JS `s.toLowerCase()`. -/
def lowerStr (s : String) : String :=
  String.mk (s.data.map lcChar)

/-- Does `hay` start with `needle` (character lists)? -/
def matchesAt : List Char → List Char → Bool
  | [], _ => true
  | _ :: _, [] => false
  | a :: as, b :: bs => a == b && matchesAt as bs

/-- Does `needle` occur as a contiguous run inside the character list? -/
def containsFrom (needle : List Char) : List Char → Bool
  | [] => needle.isEmpty
  | c :: cs => matchesAt needle (c :: cs) || containsFrom needle cs

/-- JS `hay.includes(needle)`. -/
def includesStr (hay needle : String) : Bool :=
  containsFrom needle.data hay.data

/-- The closed event-category enumeration (`EventCategory` in the source). -/
inductive EventCategory
  | motion | face | person | vehicle | animal | license_plate | tamper
  | analytics | ptz | audio | recording | digital_input | relay | device
  | unknown
  deriving DecidableEq, Repr

/-- `categorizeEvent(topic)`: ordered case-insensitive substring matching,
translated branch by branch from the source. -/
def categorizeEvent (topic : String) : EventCategory :=
  let topicLower := lowerStr topic
  if includesStr topicLower "facedetect" || includesStr topicLower "facedetection" then
    .face
  else if includesStr topicLower "peopledetect" || includesStr topicLower "persondetect" ||
      includesStr topicLower "humandetect" then
    .person
  else if includesStr topicLower "vehicledetect" || includesStr topicLower "cardetect" then
    .vehicle
  else if includesStr topicLower "dogcatdetect" || includesStr topicLower "animaldetect" ||
      includesStr topicLower "petdetect" then
    .animal
  else if includesStr topicLower "licenseplate" || includesStr topicLower "anpr" then
    .license_plate
  else if includesStr topicLower "motiondetect" || includesStr topicLower "cellmotion" ||
      includesStr topicLower "linedetect" || includesStr topicLower "fielddetect" ||
      includesStr topicLower "motionalarm" then
    .motion
  else if includesStr topicLower "imagetooblurry" || includesStr topicLower "imagetoodark" ||
      includesStr topicLower "imagetoobright" || includesStr topicLower "globalscenechange" ||
      includesStr topicLower "tamper" then
    .tamper
  else if includesStr topicLower "audioanalytics" || includesStr topicLower "audiodetect" then
    .audio
  else if includesStr topicLower "digitalinput" || includesStr topicLower "trigger/digitalinput" then
    .digital_input
  else if includesStr topicLower "relay" || includesStr topicLower "relayoutput" then
    .relay
  else if includesStr topicLower "ptzcontroller" || includesStr topicLower "ptzstatus" then
    .ptz
  else if includesStr topicLower "recording" then
    .recording
  else if includesStr topicLower "videoanalytics" || includesStr topicLower "analytics" then
    .analytics
  else if includesStr topicLower "device/" then
    .device
  else
    .unknown

/-- The spec's ordered pattern table: rule groups in the priority order
face, person, vehicle, animal, license-plate, motion, tamper, audio,
digital-input, relay, ptz, recording, analytics, device. -/
def patternTable : List (EventCategory × List String) :=
  [(.face, ["facedetect", "facedetection"]),
   (.person, ["peopledetect", "persondetect", "humandetect"]),
   (.vehicle, ["vehicledetect", "cardetect"]),
   (.animal, ["dogcatdetect", "animaldetect", "petdetect"]),
   (.license_plate, ["licenseplate", "anpr"]),
   (.motion, ["motiondetect", "cellmotion", "linedetect", "fielddetect", "motionalarm"]),
   (.tamper, ["imagetooblurry", "imagetoodark", "imagetoobright", "globalscenechange", "tamper"]),
   (.audio, ["audioanalytics", "audiodetect"]),
   (.digital_input, ["digitalinput", "trigger/digitalinput"]),
   (.relay, ["relay", "relayoutput"]),
   (.ptz, ["ptzcontroller", "ptzstatus"]),
   (.recording, ["recording"]),
   (.analytics, ["videoanalytics", "analytics"]),
   (.device, ["device/"])]

/-- First rule group (in table order) one of whose patterns occurs in the
lowered topic; falls through to `unknown`. -/
def firstCategoryMatch (tl : String) : List (EventCategory × List String) → EventCategory
  | [] => .unknown
  | (c, pats) :: rest =>
      if pats.any (fun p => includesStr tl p) then c else firstCategoryMatch tl rest

/-- The classifier as the spec describes it: walk the ordered pattern table
and return the first group that matches, else `unknown`. -/
def classifySpec (topic : String) : EventCategory :=
  firstCategoryMatch (lowerStr topic) patternTable

/-- A simple-item value as decoded from the XML body: a string or a
boolean.  JS `v === true` is `v = .bool true`, `v === 'true'` is
`v = .str "true"`, and so on. -/
inductive JsValue
  | bool (b : Bool)
  | str (s : String)
  deriving DecidableEq, Repr

/-- The truthiness test the extractors apply to boolean-like items:
`item.value === true || item.value === 'true' || item.value === '1'`. -/
def isTruthy (v : JsValue) : Bool :=
  v == .bool true || v == .str "true" || v == .str "1"

/-- JS `String(v)` on the value space above. -/
def jsString : JsValue → String
  | .bool true => "true"
  | .bool false => "false"
  | .str s => s

/-- One `(name, value)` simple item; `name` is optional in the decoded XML. -/
structure SimpleItem where
  name : Option String
  value : JsValue
  deriving DecidableEq, Repr

/-- `(item.name ?? '').toLowerCase()`. -/
def itemNameLower (i : SimpleItem) : String :=
  lowerStr (i.name.getD "")

/-- A decoded field that may arrive as a single value or as a collection
(JS `Array.isArray(x) ? x : [x]` is `OneOrMany.toList`). -/
inductive OneOrMany (α : Type)
  | one (a : α)
  | many (l : List α)
  deriving DecidableEq, Repr

def OneOrMany.toList {α : Type} : OneOrMany α → List α
  | .one a => [a]
  | .many l => l

/-- A `source` / `data` section: an optional `simpleItem` field. -/
structure ItemSection where
  simpleItem : Option (OneOrMany SimpleItem)
  deriving DecidableEq, Repr

/-- The inner `message` element: `source`, `data`, `utcTime`. -/
structure MessageBody where
  source : Option ItemSection
  data : Option ItemSection
  utcTime : Option Int
  deriving DecidableEq, Repr

/-- One notification message: `topic?._` and the inner `message?`. -/
structure NotificationMessage where
  topic : Option String
  message : Option MessageBody
  deriving DecidableEq, Repr

/-- The item list an extractor iterates over for one section:
`if (sec?.simpleItem) { const items = Array.isArray(...) ? ... : [...] }`,
empty when the section or its `simpleItem` field is absent. -/
def sectionItems (sec : Option ItemSection) : List SimpleItem :=
  match sec with
  | some s =>
      match s.simpleItem with
      | some om => om.toList
      | none => []
  | none => []

/-- The data section of a message (`message.message?.data`). -/
def msgDataItems (m : NotificationMessage) : List SimpleItem :=
  sectionItems (m.message.bind (fun b => b.data))

/-- The source section of a message (`message.message?.source`). -/
def msgSourceItems (m : NotificationMessage) : List SimpleItem :=
  sectionItems (m.message.bind (fun b => b.source))

/-- Extracted motion event record (`MotionEventData`); fields that the
source assigns conditionally are `Option`s. -/
structure MotionEventData where
  isMotion : Bool
  videoSourceToken : Option String
  rule : Option String
  timestamp : Option Int
  deriving DecidableEq, Repr

/-- One step of the motion extractor's data-item loop:
`if (name === 'ismotion' || name === 'state') isMotion = truthy(value)`. -/
def motionDataStep (acc : Bool) (item : SimpleItem) : Bool :=
  let name := itemNameLower item
  if name = "ismotion" || name = "state" then isTruthy item.value else acc

/-- One step of the motion extractor's source-item loop, updating
`(videoSourceToken, rule)`. -/
def motionSourceStep (acc : Option String × Option String) (item : SimpleItem) :
    Option String × Option String :=
  let name := itemNameLower item
  let vst := if name = "videosourcetoken" || name = "videosourceconfigurationtoken" then
      some (jsString item.value)
    else acc.1
  let rl := if name = "rule" then some (jsString item.value) else acc.2
  (vst, rl)

/-- `parseMotionEvent(message)`: `undefined` when the topic is absent,
empty (JS falsy) or not motion-classified; otherwise the record built by
iterating the data and source simple items. -/
def parseMotionEvent (m : NotificationMessage) : Option MotionEventData :=
  match m.topic with
  | none => none
  | some t =>
      if t = "" then none
      else if categorizeEvent t ≠ .motion then none
      else
        let isMotion := (msgDataItems m).foldl motionDataStep false
        let sr := (msgSourceItems m).foldl motionSourceStep (none, none)
        some { isMotion := isMotion, videoSourceToken := sr.1, rule := sr.2,
               timestamp := m.message.bind (fun b => b.utcTime) }

/-- Extracted audio event record (`AudioEventData`).  The `level` field in
the source is `Number(item.value)`; the selection of the item is modelled
exactly and the selected raw value is kept (float conversion abstracted). -/
structure AudioEventData where
  isAudioDetected : Bool
  audioSourceToken : Option String
  audioType : Option String
  level : Option JsValue
  rule : Option String
  timestamp : Option Int
  deriving DecidableEq, Repr

/-- Accumulator of the audio extractor's data-item loop. -/
structure AudioDataAcc where
  isAudioDetected : Bool
  audioType : Option String
  level : Option JsValue
  deriving DecidableEq, Repr

/-- One step of the audio extractor's data-item loop. -/
def audioDataStep (acc : AudioDataAcc) (item : SimpleItem) : AudioDataAcc :=
  let name := itemNameLower item
  let a1 := if name = "isaudiodetected" || name = "state" || name = "isactive" ||
      name = "issound" then
      { acc with isAudioDetected := isTruthy item.value }
    else acc
  let a2 := if name = "audiotype" || name = "soundtype" || name = "type" then
      { a1 with audioType := some (jsString item.value) }
    else a1
  if name = "level" || name = "soundlevel" || name = "audiolevel" then
    { a2 with level := some item.value }
  else a2

/-- One step of the audio extractor's source-item loop, updating
`(audioSourceToken, rule)`. -/
def audioSourceStep (acc : Option String × Option String) (item : SimpleItem) :
    Option String × Option String :=
  let name := itemNameLower item
  let ast := if name = "audiosourcetoken" || name = "audiosourceconfigurationtoken" then
      some (jsString item.value)
    else acc.1
  let rl := if name = "rule" then some (jsString item.value) else acc.2
  (ast, rl)

/-- The ordered topic-substring fallback table for `audioType`. -/
def audioTypeFromTopic (topicLower : String) : String :=
  if includesStr topicLower "scream" then "scream"
  else if includesStr topicLower "gunshot" then "gunshot"
  else if includesStr topicLower "glass" || includesStr topicLower "break" then "glass_break"
  else if includesStr topicLower "cry" || includesStr topicLower "baby" then "cry"
  else if includesStr topicLower "bark" || includesStr topicLower "dog" then "bark"
  else if includesStr topicLower "alarm" then "alarm"
  else "generic"

/-- JS falsiness of the `audioType` string variable at the fallback check:
`undefined` or the empty string. -/
def audioTypeFalsy : Option String → Bool
  | none => true
  | some s => s = ""

/-- `parseAudioEvent(message)`: `undefined` unless the topic classifies as
audio; otherwise the record built from the data/source item loops, with
`audioType` inferred from the topic when the payload left it falsy. -/
def parseAudioEvent (m : NotificationMessage) : Option AudioEventData :=
  match m.topic with
  | none => none
  | some t =>
      if t = "" then none
      else if categorizeEvent t ≠ .audio then none
      else
        let acc := (msgDataItems m).foldl audioDataStep
          { isAudioDetected := false, audioType := none, level := none }
        let sr := (msgSourceItems m).foldl audioSourceStep (none, none)
        let audioType := if audioTypeFalsy acc.audioType then
            some (audioTypeFromTopic (lowerStr t))
          else acc.audioType
        some { isAudioDetected := acc.isAudioDetected, audioSourceToken := sr.1,
               audioType := audioType, level := acc.level, rule := sr.2,
               timestamp := m.message.bind (fun b => b.utcTime) }

/-- `calculateTerminationTime(response)`:
`serverOffset = response.currentTime.getTime() - Date.now()`, result
`new Date(response.terminationTime.getTime() - serverOffset)`.
`now` is the value of `Date.now()` at the call. -/
def calculateTerminationTime (currentTime terminationTime now : Int) : Int :=
  terminationTime - (currentTime - now)

/-- `RETRY_ERROR_CODES`: error codes that warrant automatic reconnection. -/
def RETRY_ERROR_CODES : List String :=
  ["ECONNREFUSED", "ECONNRESET", "ETIMEDOUT", "ENETUNREACH", "EHOSTUNREACH"]

/-- `MAX_RECONNECT_MS`: maximum reconnection delay (2 minutes). -/
def MAX_RECONNECT_MS : Rat := 120000

/-- A thrown low-level error; `code` is present for network errors. -/
structure NetErr where
  code : Option String
  deriving DecidableEq, Repr

/-- `isRetryableError(error)`: the error object carries a `code` field and
it is one of `RETRY_ERROR_CODES`. -/
def isRetryableError (e : NetErr) : Bool :=
  match e.code with
  | some c => RETRY_ERROR_CODES.contains c
  | none => false

/-- Outcome of one network round trip, supplied by the environment. -/
inductive NetResult (α : Type)
  | ok (a : α)
  | err (e : NetErr)
  deriving DecidableEq, Repr

/-- Errors surfaced by the session operations. -/
inductive OnvifError
  | noActiveSubscription
  | invalidResponse
  | network (e : NetErr)
  deriving DecidableEq, Repr

/-- `isRetryableError` applied to whatever the loop body threw: the local
`Error` objects (`noActiveSubscription`, `invalidResponse`) carry no
`code` field, so only network errors can be retryable. -/
def onvifErrorRetryable : OnvifError → Bool
  | .network e => isRetryableError e
  | _ => false

/-- A live pull-point subscription handle (`PullPointSubscription`). -/
structure Subscription where
  address : String
  subscriptionId : Option String
  currentTime : Int
  terminationTime : Int
  deriving DecidableEq, Repr

/-- The mutable fields of the `Events` instance used by the claims. -/
structure EventsState where
  subscription : Option Subscription
  terminationTime : Option Int
  reconnectMs : Rat
  observedCategories : List EventCategory
  messageLimit : Nat
  shouldPoll : Bool
  deriving DecidableEq, Repr

/-- Field initializers of the `Events` class. -/
def initialEventsState : EventsState :=
  { subscription := none, terminationTime := none, reconnectMs := 10,
    observedCategories := [], messageLimit := 10, shouldPoll := false }

/-- `getObservedCategories()`: the observed set in insertion order. -/
def getObservedCategories (st : EventsState) : List EventCategory :=
  st.observedCategories

/-- `Set.add`: insert at the end unless already present (the observed set
is modelled as its insertion-ordered element list). -/
def addObserved (s : List EventCategory) (c : EventCategory) : List EventCategory :=
  if c ∈ s then s else s ++ [c]

/-- Category tracking applied to one pulled message: classify the topic
when present and non-empty (JS truthiness) and add every category other
than `unknown`. -/
def trackMessage (s : List EventCategory) (m : NotificationMessage) : List EventCategory :=
  match m.topic with
  | some t =>
      if t = "" then s
      else
        let c := categorizeEvent t
        if c ≠ .unknown then addObserved s c else s
  | none => s

/-- Category tracking over a pull result's message list. -/
def trackMessages (s : List EventCategory) (ms : List NotificationMessage) :
    List EventCategory :=
  ms.foldl trackMessage s

/-- Decoded `createPullPointSubscriptionResponse` content. -/
structure CreateRaw where
  address : String
  subscriptionId : Option String
  currentTime : Int
  terminationTime : Int
  deriving DecidableEq, Repr

/-- `createPullPointSubscription()`: the oracle gives either a thrown
error, a reply missing the expected field (`.ok none`, the
`Invalid CreatePullPointSubscription response` path), or the decoded
reply.  On success the session's subscription is replaced and the local
deadline recomputed via `calculateTerminationTime` at `now`. -/
def createOp (st : EventsState) (net : NetResult (Option CreateRaw)) (now : Int) :
    Except OnvifError Subscription × EventsState :=
  match net with
  | .err e => (.error (.network e), st)
  | .ok none => (.error .invalidResponse, st)
  | .ok (some raw) =>
      let sub : Subscription :=
        { address := raw.address, subscriptionId := raw.subscriptionId,
          currentTime := raw.currentTime, terminationTime := raw.terminationTime }
      (.ok sub,
       { st with subscription := some sub,
                 terminationTime :=
                   some (calculateTerminationTime raw.currentTime raw.terminationTime now) })

/-- Decoded `pullMessagesResponse` content. -/
structure PullRaw where
  currentTime : Int
  terminationTime : Int
  notificationMessage : Option (OneOrMany NotificationMessage)
  deriving DecidableEq, Repr

/-- Normalization of the optional single-or-array `notificationMessage`
field to a list. -/
def normalizeMessages : Option (OneOrMany NotificationMessage) → List NotificationMessage
  | some om => om.toList
  | none => []

/-- A normalized pull result. -/
structure PullResult where
  currentTime : Int
  terminationTime : Int
  messages : List NotificationMessage
  deriving DecidableEq, Repr

/-- `pullMessages()`: throws `noActiveSubscription` when no subscription is
held; otherwise performs the request, rejects a reply missing
`pullMessagesResponse`, normalizes the message field to a list, and as a
side effect adds every classified (non-`unknown`) topic to the observed
set. -/
def pullMessagesOp (st : EventsState) (net : NetResult (Option PullRaw)) :
    Except OnvifError PullResult × EventsState :=
  match st.subscription with
  | none => (.error .noActiveSubscription, st)
  | some _ =>
      match net with
      | .err e => (.error (.network e), st)
      | .ok none => (.error .invalidResponse, st)
      | .ok (some raw) =>
          let notifications := normalizeMessages raw.notificationMessage
          (.ok { currentTime := raw.currentTime, terminationTime := raw.terminationTime,
                 messages := notifications },
           { st with observedCategories := trackMessages st.observedCategories notifications })

/-- Decoded `renewResponse` content. -/
structure RenewRaw where
  currentTime : Int
  terminationTime : Int
  deriving DecidableEq, Repr

/-- `renew()`: requires an active subscription; otherwise returns the
decoded `{currentTime, terminationTime}` or rethrows the network error.
The session state is not modified by `renew` itself. -/
def renewOp (st : EventsState) (net : NetResult RenewRaw) :
    Except OnvifError RenewRaw × EventsState :=
  match st.subscription with
  | none => (.error .noActiveSubscription, st)
  | some _ =>
      match net with
      | .err e => (.error (.network e), st)
      | .ok r => (.ok r, st)

/-- `unsubscribe()`: returns immediately when no subscription is held; the
request outcome is swallowed by the `catch`, and the `finally` block
clears the subscription and the local deadline in every case. -/
def unsubscribeOp (st : EventsState) (net : NetResult Unit) :
    Except OnvifError EventsState :=
  match st.subscription with
  | none => .ok st
  | some _ =>
      match net with
      | .ok _ => .ok { st with subscription := none, terminationTime := none }
      | .err _ => .ok { st with subscription := none, terminationTime := none }

/-- `if (this.reconnectMs < MAX_RECONNECT_MS) this.reconnectMs =
Math.min(this.reconnectMs * 1.5, MAX_RECONNECT_MS)`. -/
def nextReconnect (d : Rat) : Rat :=
  if d < MAX_RECONNECT_MS then min (d * (3 / 2)) MAX_RECONNECT_MS else d

/-- The retry delay after `n` consecutive retryable failures starting from
the 10 ms floor. -/
def reconnectAfter (n : Nat) : Rat :=
  Nat.iterate nextReconnect n 10

/-- Observable actions of one loop iteration, in program order. -/
inductive LoopAction
  | emitEvent (m : NotificationMessage)
  | emitError (e : OnvifError)
  | setDeadline (t : Int)
  | sleepFor (ms : Rat)
  deriving DecidableEq, Repr

/-- The subscription staleness check at the top of the loop body:
`!this.subscription || !this.terminationTime ||
Date.now() > this.terminationTime.getTime()`. -/
def needsSubscription (st : EventsState) (now : Int) : Bool :=
  st.subscription.isNone || st.terminationTime.isNone ||
    (match st.terminationTime with
     | some t => decide (now > t)
     | none => true)

/-- Environment of one loop iteration: the successive `Date.now()` readings
and the outcome of each network call the iteration may perform. -/
structure LoopEnv where
  nowAtCheck : Int
  nowAtCreate : Int
  nowAtPull : Int
  nowAtRenew : Int
  createNet : NetResult (Option CreateRaw)
  pullNet : NetResult (Option PullRaw)
  renewNet : NetResult RenewRaw
  unsubNet : NetResult Unit

/-- The `catch` block of the loop body: emit `error`; a retryable failure
sleeps the current delay and then grows it; a non-retryable failure
best-effort unsubscribes (its own failure ignored). -/
def handleLoopError (st : EventsState) (e : OnvifError) (unsubNet : NetResult Unit) :
    EventsState × List LoopAction :=
  if onvifErrorRetryable e then
    ({ st with reconnectMs := nextReconnect st.reconnectMs },
     [.emitError e, .sleepFor st.reconnectMs])
  else
    match unsubscribeOp st unsubNet with
    | .ok st2 => (st2, [.emitError e])
    | .error _ => (st, [.emitError e])

/-- The pull-and-onwards part of one loop iteration: pull, emit one
`event` per message (tracking its category), recompute the deadline from
the pull result, attempt a renew (recomputing the deadline on success,
swallowing failure), and on a pull failure run the `catch` policy. -/
def loopPull (st1 : EventsState) (env : LoopEnv) : EventsState × List LoopAction :=
  match pullMessagesOp st1 env.pullNet with
  | (.error e, st2) => handleLoopError st2 e env.unsubNet
  | (.ok result, st2) =>
      let st3 := { st2 with reconnectMs := 10 }
      let st4 := { st3 with
        observedCategories := trackMessages st3.observedCategories result.messages }
      let d1 := calculateTerminationTime result.currentTime result.terminationTime
        env.nowAtPull
      let st5 := { st4 with terminationTime := some d1 }
      match renewOp st5 env.renewNet with
      | (.ok r, st6) =>
          let d2 := calculateTerminationTime r.currentTime r.terminationTime
            env.nowAtRenew
          ({ st6 with terminationTime := some d2 },
           result.messages.map LoopAction.emitEvent ++
             [.setDeadline d1, .setDeadline d2])
      | (.error _, st6) =>
          (st6, result.messages.map LoopAction.emitEvent ++ [.setDeadline d1])

/-- One iteration of the `while (this.shouldPoll)` body of `runEventLoop`:
recreate the subscription when stale (resetting the retry delay on
success), then pull and continue; on a create failure run the `catch`
policy. -/
def loopIteration (st : EventsState) (env : LoopEnv) : EventsState × List LoopAction :=
  if needsSubscription st env.nowAtCheck then
    match createOp st env.createNet env.nowAtCreate with
    | (.ok _, st1) => loopPull { st1 with reconnectMs := 10 } env
    | (.error e, st1) => handleLoopError st1 e env.unsubNet
  else loopPull st env

/-- The last element of the list satisfying `p`, if any. -/
def lastMatch {α : Type} (p : α → Bool) : List α → Option α
  | [] => none
  | a :: as =>
      match lastMatch p as with
      | some b => some b
      | none => if p a then some a else none

/-- Generic overwrite-style loop for an optional string field:
`if p(item) acc = some (String(item.value))`. -/
def overwriteStep (p : SimpleItem → Bool) (acc : Option String) (i : SimpleItem) :
    Option String :=
  if p i then some (jsString i.value) else acc

/-- Generic overwrite-style loop for a boolean field:
`if p(item) acc = truthy(item.value)`. -/
def boolOverwriteStep (p : SimpleItem → Bool) (acc : Bool) (i : SimpleItem) : Bool :=
  if p i then isTruthy i.value else acc

/-- Alias predicate for the motion boolean (`ismotion` / `state`). -/
def motionFlagName (i : SimpleItem) : Bool :=
  itemNameLower i = "ismotion" || itemNameLower i = "state"

/-- Alias predicate for the video source token. -/
def videoTokenName (i : SimpleItem) : Bool :=
  itemNameLower i = "videosourcetoken" || itemNameLower i = "videosourceconfigurationtoken"

/-- Alias predicate for the audio type. -/
def audioTypeName (i : SimpleItem) : Bool :=
  itemNameLower i = "audiotype" || itemNameLower i = "soundtype" || itemNameLower i = "type"

/-- Alias predicate for the audio source token. -/
def audioTokenName (i : SimpleItem) : Bool :=
  itemNameLower i = "audiosourcetoken" || itemNameLower i = "audiosourceconfigurationtoken"

/-- A concrete subscription handle used by witnesses. -/
def sampleSubscription : Subscription :=
  { address := "http://cam/onvif/events", subscriptionId := some "42",
    currentTime := 0, terminationTime := 120000 }

/-- A concrete session state holding an active subscription. -/
def sampleActiveState : EventsState :=
  { subscription := some sampleSubscription, terminationTime := some 120000,
    reconnectMs := 10, observedCategories := [], messageLimit := 10, shouldPoll := true }

/-- A loop environment whose pull succeeds with no messages and whose
renew fails. -/
def sampleEnvPullOk : LoopEnv :=
  { nowAtCheck := 0, nowAtCreate := 0, nowAtPull := 1005, nowAtRenew := 0,
    createNet := NetResult.err { code := none },
    pullNet := NetResult.ok (some
      { currentTime := 1000, terminationTime := 121000, notificationMessage := none }),
    renewNet := NetResult.err { code := none },
    unsubNet := NetResult.ok () }

/-- A loop environment whose pull fails with a retryable network error. -/
def sampleEnvPullRetry : LoopEnv :=
  { nowAtCheck := 0, nowAtCreate := 0, nowAtPull := 0, nowAtRenew := 0,
    createNet := NetResult.err { code := none },
    pullNet := NetResult.err { code := some "ECONNRESET" },
    renewNet := NetResult.err { code := none },
    unsubNet := NetResult.ok () }

/-- A motion message whose source section carries two items matching the
video-source-token alias set, with distinct values. -/
def c5MotionMsg : NotificationMessage :=
  { topic := some "tns1:RuleEngine/CellMotionDetector/Motion",
    message := some
      { source := some { simpleItem := some (.many
          [{ name := some "VideoSourceToken", value := .str "A" },
           { name := some "VideoSourceConfigurationToken", value := .str "B" }]) },
        data := some { simpleItem := some (.one
          { name := some "IsMotion", value := .str "true" }) },
        utcTime := none } }

/-- Two distinct sample notification messages. -/
def sampleMotionMsg : NotificationMessage :=
  { topic := some "tns1:RuleEngine/CellMotionDetector/Motion",
    message := some
      { source := none,
        data := some { simpleItem := some (.one
          { name := some "IsMotion", value := .str "true" }) },
        utcTime := none } }

def sampleTamperMsg : NotificationMessage :=
  { topic := some "tns1:VideoSource/GlobalSceneChange/ImagingService",
    message := none }

/-- A loop environment whose pull returns two messages. -/
def sampleEnvTwoMsgs : LoopEnv :=
  { nowAtCheck := 0, nowAtCreate := 0, nowAtPull := 0, nowAtRenew := 0,
    createNet := NetResult.err { code := none },
    pullNet := NetResult.ok (some
      { currentTime := 1000, terminationTime := 121000,
        notificationMessage := some (.many [sampleMotionMsg, sampleTamperMsg]) }),
    renewNet := NetResult.err { code := none },
    unsubNet := NetResult.ok () }

/-- An audio-classified message, used to exercise the `none` branch. -/
def sampleAudioMsg : NotificationMessage :=
  { topic := some "tns1:AudioAnalytics/Audio/DetectedSound",
    message := some
      { source := none,
        data := some { simpleItem := some (.one
          { name := some "IsSoundDetected", value := .str "true" }) },
        utcTime := none } }

/-! ### Helper lemmas -/

/-- The hand-written branch chain agrees with the ordered-table walk. -/
theorem categorize_eq_table (t : String) : categorizeEvent t = classifySpec t := by
  simp only [categorizeEvent, classifySpec, patternTable, firstCategoryMatch,
    List.any_cons, List.any_nil, Bool.or_false, Bool.or_assoc]

theorem foldl_overwriteStep (p : SimpleItem → Bool) (items : List SimpleItem)
    (acc : Option String) :
    items.foldl (overwriteStep p) acc =
      match lastMatch p items with
      | some j => some (jsString j.value)
      | none => acc := by
  induction items generalizing acc with
  | nil => rfl
  | cons i is ih =>
      show is.foldl (overwriteStep p) (overwriteStep p acc i) = _
      rw [ih]
      cases hl : lastMatch p is with
      | some j => simp [lastMatch, hl]
      | none =>
          by_cases hp : p i = true
          · simp [lastMatch, hl, hp, overwriteStep]
          · simp only [Bool.not_eq_true] at hp
            simp [lastMatch, hl, hp, overwriteStep]

theorem foldl_boolOverwriteStep (p : SimpleItem → Bool) (items : List SimpleItem)
    (acc : Bool) :
    items.foldl (boolOverwriteStep p) acc =
      match lastMatch p items with
      | some j => isTruthy j.value
      | none => acc := by
  induction items generalizing acc with
  | nil => rfl
  | cons i is ih =>
      show is.foldl (boolOverwriteStep p) (boolOverwriteStep p acc i) = _
      rw [ih]
      cases hl : lastMatch p is with
      | some j => simp [lastMatch, hl]
      | none =>
          by_cases hp : p i = true
          · simp [lastMatch, hl, hp, boolOverwriteStep]
          · simp only [Bool.not_eq_true] at hp
            simp [lastMatch, hl, hp, boolOverwriteStep]

theorem motionDataStep_eq (acc : Bool) (i : SimpleItem) :
    motionDataStep acc i = boolOverwriteStep motionFlagName acc i := rfl

theorem motionSourceStep_fst (acc : Option String × Option String) (i : SimpleItem) :
    (motionSourceStep acc i).1 = overwriteStep videoTokenName acc.1 i := rfl

theorem foldl_motionSource_fst (items : List SimpleItem) (acc : Option String × Option String) :
    (items.foldl motionSourceStep acc).1 = items.foldl (overwriteStep videoTokenName) acc.1 := by
  induction items generalizing acc with
  | nil => rfl
  | cons i is ih =>
      show (is.foldl motionSourceStep (motionSourceStep acc i)).1 = _
      rw [ih, motionSourceStep_fst, List.foldl_cons]

theorem audioDataStep_audioType (acc : AudioDataAcc) (i : SimpleItem) :
    (audioDataStep acc i).audioType = overwriteStep audioTypeName acc.audioType i := by
  simp only [audioDataStep, overwriteStep, audioTypeName]
  split <;> split <;> first | rfl | (split <;> rfl)

theorem foldl_audioData_audioType (items : List SimpleItem) (acc : AudioDataAcc) :
    (items.foldl audioDataStep acc).audioType =
      items.foldl (overwriteStep audioTypeName) acc.audioType := by
  induction items generalizing acc with
  | nil => rfl
  | cons i is ih =>
      show (is.foldl audioDataStep (audioDataStep acc i)).audioType = _
      rw [ih, audioDataStep_audioType, List.foldl_cons]

theorem audioSourceStep_fst (acc : Option String × Option String) (i : SimpleItem) :
    (audioSourceStep acc i).1 = overwriteStep audioTokenName acc.1 i := rfl

theorem foldl_audioSource_fst (items : List SimpleItem) (acc : Option String × Option String) :
    (items.foldl audioSourceStep acc).1 = items.foldl (overwriteStep audioTokenName) acc.1 := by
  induction items generalizing acc with
  | nil => rfl
  | cons i is ih =>
      show (is.foldl audioSourceStep (audioSourceStep acc i)).1 = _
      rw [ih, audioSourceStep_fst, List.foldl_cons]

/-- When no pattern of any table row occurs in the lowered topic, the
table walk falls through to `unknown`. -/
theorem firstCategoryMatch_none (tl : String)
    (table : List (EventCategory × List String))
    (h : (table.all fun p => p.2.all fun pat => !includesStr tl pat) = true) :
    firstCategoryMatch tl table = .unknown := by
  induction table with
  | nil => rfl
  | cons hd rest ih =>
      rw [List.all_cons, Bool.and_eq_true] at h
      have hany : (hd.2.any fun p => includesStr tl p) = false := by
        rw [List.any_eq_false]
        intro pat hpat
        have := (List.all_eq_true.mp h.1) pat hpat
        simpa using this
      obtain ⟨c, pats⟩ := hd
      simp only [firstCategoryMatch]
      rw [hany]
      simpa using ih h.2

/-- Membership after a set insert. -/
theorem mem_addObserved {a c : EventCategory} {s : List EventCategory}
    (h : a ∈ addObserved s c) : a ∈ s ∨ a = c := by
  unfold addObserved at h
  by_cases hc : c ∈ s
  · rw [if_pos hc] at h; exact Or.inl h
  · rw [if_neg hc] at h
    rcases List.mem_append.mp h with h1 | h1
    · exact Or.inl h1
    · exact Or.inr (List.mem_singleton.mp h1)

/-- Tracking one message never inserts `unknown`. -/
theorem trackMessage_no_unknown {s : List EventCategory} (m : NotificationMessage)
    (h : EventCategory.unknown ∉ s) : EventCategory.unknown ∉ trackMessage s m := by
  cases htop : m.topic with
  | none => simpa [trackMessage, htop] using h
  | some t =>
      by_cases ht : t = ""
      · simpa [trackMessage, htop, ht] using h
      · by_cases hc : categorizeEvent t = .unknown
        · simpa [trackMessage, htop, ht, hc] using h
        · have hcc : categorizeEvent t ≠ EventCategory.unknown := hc
          simp only [trackMessage, htop, if_neg ht, if_pos hcc, ne_eq]
          intro hmem
          rcases mem_addObserved hmem with h1 | h1
          · exact h h1
          · exact hc h1.symm

/-- Tracking a message list never inserts `unknown`. -/
theorem trackMessages_no_unknown {s : List EventCategory}
    (ms : List NotificationMessage) (h : EventCategory.unknown ∉ s) :
    EventCategory.unknown ∉ trackMessages s ms := by
  induction ms generalizing s with
  | nil => exact h
  | cons m rest ih => exact ih (trackMessage_no_unknown m h)

/-- The `catch` policy never touches the observed-category set. -/
theorem handleLoopError_observed (st : EventsState) (e : OnvifError) (un : NetResult Unit) :
    (handleLoopError st e un).1.observedCategories = st.observedCategories := by
  unfold handleLoopError unsubscribeOp
  split
  · rfl
  · cases st.subscription <;> cases un <;> rfl

/-- `createOp` never touches the observed-category set. -/
theorem createOp_observed (st : EventsState) (net : NetResult (Option CreateRaw)) (now : Int) :
    (createOp st net now).2.observedCategories = st.observedCategories := by
  cases net with
  | err e => rfl
  | ok o => cases o <;> rfl

/-- `pullMessagesOp` never inserts `unknown` into the observed set. -/
theorem pullMessagesOp_no_unknown (st : EventsState) (net : NetResult (Option PullRaw))
    (h : EventCategory.unknown ∉ st.observedCategories) :
    EventCategory.unknown ∉ (pullMessagesOp st net).2.observedCategories := by
  cases hsub : st.subscription with
  | none => simpa [pullMessagesOp, hsub] using h
  | some sub =>
      cases net with
      | err e => simpa [pullMessagesOp, hsub] using h
      | ok o =>
          cases o with
          | none => simpa [pullMessagesOp, hsub] using h
          | some raw =>
              simp only [pullMessagesOp, hsub]
              exact trackMessages_no_unknown _ h

/-- The pull-and-onwards part never inserts `unknown` into the observed
set. -/
theorem loopPull_no_unknown (st1 : EventsState) (env : LoopEnv)
    (h : EventCategory.unknown ∉ st1.observedCategories) :
    EventCategory.unknown ∉ (loopPull st1 env).1.observedCategories := by
  unfold loopPull
  cases hpull : pullMessagesOp st1 env.pullNet with
  | mk res st2 =>
      have h2 : EventCategory.unknown ∉ st2.observedCategories := by
        have := pullMessagesOp_no_unknown st1 env.pullNet h
        rwa [hpull] at this
      cases res with
      | error e =>
          rw [handleLoopError_observed]
          exact h2
      | ok result =>
          have h4 : EventCategory.unknown ∉
              trackMessages st2.observedCategories result.messages :=
            trackMessages_no_unknown _ h2
          cases henv : env.renewNet with
          | ok r =>
              simp only [renewOp]
              cases st2.subscription <;> simp [henv] <;> exact h4
          | err e =>
              simp only [renewOp]
              cases st2.subscription <;> simp [henv] <;> exact h4

/-- One loop iteration never inserts `unknown` into the observed set. -/
theorem loopIteration_no_unknown (st : EventsState) (env : LoopEnv)
    (h : EventCategory.unknown ∉ st.observedCategories) :
    EventCategory.unknown ∉ (loopIteration st env).1.observedCategories := by
  unfold loopIteration
  by_cases hns : needsSubscription st env.nowAtCheck = true
  · rw [if_pos hns]
    cases hcr : createOp st env.createNet env.nowAtCreate with
    | mk res st1 =>
        have h1 : EventCategory.unknown ∉ st1.observedCategories := by
          have := createOp_observed st env.createNet env.nowAtCreate
          rw [hcr] at this
          rwa [this]
        cases res with
        | ok sub => exact loopPull_no_unknown _ env h1
        | error e =>
            rw [handleLoopError_observed]
            exact h1
  · rw [if_neg hns]
    exact loopPull_no_unknown st env h

/-- The backoff recurrence keeps the delay at or above the 10 ms floor. -/
theorem reconnectAfter_floor (n : Nat) : 10 ≤ reconnectAfter n := by
  induction n with
  | zero => norm_num [reconnectAfter]
  | succ k ih =>
      have hstep : reconnectAfter (k + 1) = nextReconnect (reconnectAfter k) := by
        unfold reconnectAfter
        rw [Function.iterate_succ_apply']
      rw [hstep]
      unfold nextReconnect
      split
      · refine le_min ?_ ?_
        · calc (10 : Rat) ≤ reconnectAfter k := ih
            _ ≤ reconnectAfter k * (3 / 2) := by nlinarith [ih]
        · norm_num [MAX_RECONNECT_MS]
      · exact ih

/-- The backoff recurrence never exceeds the 120000 ms ceiling. -/
theorem reconnectAfter_ceiling (n : Nat) : reconnectAfter n ≤ 120000 := by
  induction n with
  | zero => norm_num [reconnectAfter]
  | succ k ih =>
      have hstep : reconnectAfter (k + 1) = nextReconnect (reconnectAfter k) := by
        unfold reconnectAfter
        rw [Function.iterate_succ_apply']
      rw [hstep]
      unfold nextReconnect
      split
      · exact le_trans (min_le_right _ _) (by norm_num [MAX_RECONNECT_MS])
      · exact ih

/-! ### Claim theorems -/

/-- C1 counterexample: with device `currentTime = T = 0`,
`terminationTime = 120000` and local clock `5000` at receipt,
`calculateTerminationTime` yields `125000 = localNow + 120000`, not the
claimed `localNow + 115000 = 120000`. -/
theorem claim_C1_counterexample :
    calculateTerminationTime 0 120000 5000 = 125000 ∧
    calculateTerminationTime 0 120000 5000 ≠ 5000 + 115000 := by
  constructor
  · rfl
  · decide

/-- C1 amended: when a response reports device `currentTime = T` and
`terminationTime = T + 120s` and the local clock reads `T + 5s` at
receipt, the recomputed local termination deadline is `localNow + 120s`:
the subscription's full 120s lifetime is kept, measured from the local
clock, so the 5s skew in the device's absolute expiry is removed
(times in milliseconds). -/
theorem claim_C1_deadline_removes_skew (T : Int) :
    calculateTerminationTime T (T + 120000) (T + 5000) = (T + 5000) + 120000 := by
  unfold calculateTerminationTime
  ring

/-- C2: the local termination deadline equals
`terminationTime - (deviceCurrentTime - localNow)`, and it is recomputed
after every `createSubscription`, after every successful `pullMessages`
(in the loop), and after every successful `renew` (in the loop). -/
theorem claim_C2_deadline_recomputation :
    (∀ c t n : Int, calculateTerminationTime c t n = t - (c - n)) ∧
    (∀ (st : EventsState) (raw : CreateRaw) (now : Int),
       (createOp st (NetResult.ok (some raw)) now).2.terminationTime =
         some (calculateTerminationTime raw.currentTime raw.terminationTime now)) ∧
    (∀ (st : EventsState) (env : LoopEnv) (sub : Subscription) (praw : PullRaw),
       st.subscription = some sub →
       needsSubscription st env.nowAtCheck = false →
       env.pullNet = NetResult.ok (some praw) →
       (∀ e, env.renewNet = NetResult.err e →
          (loopIteration st env).1.terminationTime =
            some (calculateTerminationTime praw.currentTime praw.terminationTime
              env.nowAtPull)) ∧
       (∀ r, env.renewNet = NetResult.ok r →
          (loopIteration st env).1.terminationTime =
            some (calculateTerminationTime r.currentTime r.terminationTime
              env.nowAtRenew))) := by
  refine ⟨fun c t n => rfl, fun st raw now => rfl, ?_⟩
  intro st env sub praw hsub hns hpull
  constructor
  · intro e hre
    simp [loopIteration, hns, loopPull, pullMessagesOp, hsub, hpull, renewOp, hre]
  · intro r hre
    simp [loopIteration, hns, loopPull, pullMessagesOp, hsub, hpull, renewOp, hre]

theorem claim_C2_witness :
    (loopIteration sampleActiveState sampleEnvPullOk).1.terminationTime = some 121005 := by
  have h := (claim_C2_deadline_recomputation.2.2 sampleActiveState sampleEnvPullOk
    sampleSubscription
    { currentTime := 1000, terminationTime := 121000, notificationMessage := none }
    rfl (by decide) rfl).1 { code := none } rfl
  rw [h]
  rfl

/-- C3: the classifier is total over arbitrary strings and agrees with the
ordered pattern table (priority order face, person, vehicle, animal,
license-plate, motion, tamper, audio, digital-input, relay, ptz,
recording, analytics, device); a topic containing both "analytics" and
"facedetection" (case-insensitively) classifies as `face`; a string
matching no pattern group yields `unknown`. -/
theorem claim_C3_classifier_priority :
    (∀ t, categorizeEvent t = classifySpec t) ∧
    (∀ t, includesStr (lowerStr t) "analytics" = true →
       includesStr (lowerStr t) "facedetection" = true →
       categorizeEvent t = .face) ∧
    (∀ t, (patternTable.all fun p => p.2.all fun pat => !includesStr (lowerStr t) pat) = true →
       categorizeEvent t = .unknown) := by
  refine ⟨categorize_eq_table, ?_, ?_⟩
  · intro t _ h2
    unfold categorizeEvent
    simp [h2]
  · intro t h
    rw [categorize_eq_table t]
    exact firstCategoryMatch_none _ _ h

theorem claim_C3_witness :
    categorizeEvent "tns1:VideoAnalytics/FaceDetection" = .face ∧
    categorizeEvent "no pattern here" = .unknown := by
  constructor
  · exact claim_C3_classifier_priority.2.1 _ (by decide) (by decide)
  · exact claim_C3_classifier_priority.2.2 _ (by decide)

/-- C4: the retry delay starts at the 10 ms floor; a retryable failure in
the loop first sleeps the current delay and then applies
`min(delay * 1.5, 120000)`; the resulting sequence is 10, 15, 22.5, ...
bounded by the floor and the 120000 ms ceiling; a successful pull resets
the delay to 10 ms, and a successful subscription creation resets it
before the next failure grows it from 10. -/
theorem claim_C4_backoff :
    initialEventsState.reconnectMs = 10 ∧
    (∀ (st : EventsState) (env : LoopEnv) (sub : Subscription) (e : NetErr),
       st.subscription = some sub →
       needsSubscription st env.nowAtCheck = false →
       env.pullNet = NetResult.err e → isRetryableError e = true →
       loopIteration st env =
         ({ st with reconnectMs := nextReconnect st.reconnectMs },
          [LoopAction.emitError (.network e), LoopAction.sleepFor st.reconnectMs])) ∧
    (∀ d : Rat, d < MAX_RECONNECT_MS →
       nextReconnect d = min (d * (3 / 2)) MAX_RECONNECT_MS) ∧
    reconnectAfter 0 = 10 ∧ reconnectAfter 1 = 15 ∧ reconnectAfter 2 = 45 / 2 ∧
    (∀ n, 10 ≤ reconnectAfter n ∧ reconnectAfter n ≤ 120000) ∧
    (∀ (st : EventsState) (env : LoopEnv) (sub : Subscription) (praw : PullRaw),
       st.subscription = some sub →
       needsSubscription st env.nowAtCheck = false →
       env.pullNet = NetResult.ok (some praw) →
       (loopIteration st env).1.reconnectMs = 10) ∧
    (∀ (st : EventsState) (env : LoopEnv) (craw : CreateRaw) (e : NetErr),
       needsSubscription st env.nowAtCheck = true →
       env.createNet = NetResult.ok (some craw) →
       env.pullNet = NetResult.err e → isRetryableError e = true →
       (loopIteration st env).1.reconnectMs = nextReconnect 10 ∧
       (loopIteration st env).2 =
         [LoopAction.emitError (.network e), LoopAction.sleepFor 10]) := by
  refine ⟨rfl, ?_, ?_, rfl, by norm_num [reconnectAfter, nextReconnect, MAX_RECONNECT_MS],
    by norm_num [reconnectAfter, nextReconnect, MAX_RECONNECT_MS],
    fun n => ⟨reconnectAfter_floor n, reconnectAfter_ceiling n⟩, ?_, ?_⟩
  · intro st env sub e hsub hns hpull hretry
    simp [loopIteration, hns, loopPull, pullMessagesOp, hsub, hpull, handleLoopError,
      onvifErrorRetryable, hretry]
  · intro d hd
    unfold nextReconnect
    rw [if_pos hd]
  · intro st env sub praw hsub hns hpull
    cases hre : env.renewNet with
    | ok r =>
        simp [loopIteration, hns, loopPull, pullMessagesOp, hsub, hpull, renewOp, hre]
    | err e =>
        simp [loopIteration, hns, loopPull, pullMessagesOp, hsub, hpull, renewOp, hre]
  · intro st env craw e hns hcr hpull hretry
    constructor
    · simp [loopIteration, hns, createOp, hcr, loopPull, pullMessagesOp, hpull,
        handleLoopError, onvifErrorRetryable, hretry]
    · simp [loopIteration, hns, createOp, hcr, loopPull, pullMessagesOp, hpull,
        handleLoopError, onvifErrorRetryable, hretry]

theorem claim_C4_witness :
    loopIteration sampleActiveState sampleEnvPullRetry =
      ({ sampleActiveState with reconnectMs := 15 },
       [LoopAction.emitError (.network { code := some "ECONNRESET" }),
        LoopAction.sleepFor 10]) := by
  have h := claim_C4_backoff.2.1 sampleActiveState sampleEnvPullRetry sampleSubscription
    { code := some "ECONNRESET" } rfl (by decide) rfl (by decide)
  rw [h]
  norm_num [nextReconnect, MAX_RECONNECT_MS, sampleActiveState]

/-- C5 counterexample: on a message whose source section carries two items
matching the video-source-token alias set (values "A" then "B"), the
motion extractor returns the value of the second (last) matching item,
not the first. -/
theorem claim_C5_counterexample :
    (parseMotionEvent c5MotionMsg).map (fun r => r.videoSourceToken) = some (some "B") ∧
    (parseMotionEvent c5MotionMsg).map (fun r => r.videoSourceToken) ≠ some (some "A") := by
  constructor
  · rfl
  · decide

/-- C5 amended: when two or more simple items match the alias set of the
same string field, the extractor takes the field's value from the LAST
matching item (the loops assign without breaking): shown for the motion
extractor's video source token and the audio extractor's audio source
token and audio type (the latter falling back to the topic table when the
selected value is falsy). -/
theorem claim_C5_last_match_wins :
    (∀ (m : NotificationMessage) (t : String), m.topic = some t → t ≠ "" →
       categorizeEvent t = .motion →
       (parseMotionEvent m).map (fun r => r.videoSourceToken) =
         some ((lastMatch videoTokenName (msgSourceItems m)).map
           (fun j => jsString j.value))) ∧
    (∀ (m : NotificationMessage) (t : String), m.topic = some t → t ≠ "" →
       categorizeEvent t = .audio →
       (parseAudioEvent m).map (fun r => r.audioSourceToken) =
         some ((lastMatch audioTokenName (msgSourceItems m)).map
           (fun j => jsString j.value))) ∧
    (∀ (m : NotificationMessage) (t : String), m.topic = some t → t ≠ "" →
       categorizeEvent t = .audio →
       (parseAudioEvent m).map (fun r => r.audioType) =
         some (
           let sel := (lastMatch audioTypeName (msgDataItems m)).map
             (fun j => jsString j.value)
           if audioTypeFalsy sel then some (audioTypeFromTopic (lowerStr t)) else sel)) := by
  refine ⟨?_, ?_, ?_⟩
  · intro m t ht hne hcat
    have hcc : ¬(categorizeEvent t ≠ EventCategory.motion) := by simp [hcat]
    simp only [parseMotionEvent, ht, if_neg hne, if_neg hcc, Option.map_some']
    rw [foldl_motionSource_fst, foldl_overwriteStep]
    cases lastMatch videoTokenName (msgSourceItems m) <;> rfl
  · intro m t ht hne hcat
    have hcc : ¬(categorizeEvent t ≠ EventCategory.audio) := by simp [hcat]
    simp only [parseAudioEvent, ht, if_neg hne, if_neg hcc, Option.map_some']
    rw [foldl_audioSource_fst, foldl_overwriteStep]
    cases lastMatch audioTokenName (msgSourceItems m) <;> rfl
  · intro m t ht hne hcat
    have hcc : ¬(categorizeEvent t ≠ EventCategory.audio) := by simp [hcat]
    simp only [parseAudioEvent, ht, if_neg hne, if_neg hcc, Option.map_some']
    rw [foldl_audioData_audioType, foldl_overwriteStep]
    cases lastMatch audioTypeName (msgDataItems m) <;> rfl

theorem claim_C5_witness :
    (parseMotionEvent c5MotionMsg).map (fun r => r.videoSourceToken) = some (some "B") := by
  have h := claim_C5_last_match_wins.1 c5MotionMsg "tns1:RuleEngine/CellMotionDetector/Motion"
    rfl (by decide) (by decide)
  rw [h]
  rfl

/-- C6: in a loop iteration whose pull succeeds with N notification
messages (whether the subscription was reused or successfully recreated),
the action trace is exactly one `event` emission per message, in pull
order, followed by the deadline update from the pull result and then the
renew outcome: all events are emitted before the deadline update and the
renew attempt. -/
theorem claim_C6_emit_order (st : EventsState) (env : LoopEnv) (praw : PullRaw)
    (hpull : env.pullNet = NetResult.ok (some praw))
    (hstart : (needsSubscription st env.nowAtCheck = false ∧
        ∃ sub, st.subscription = some sub) ∨
      (needsSubscription st env.nowAtCheck = true ∧
        ∃ craw, env.createNet = NetResult.ok (some craw))) :
    (loopIteration st env).2 =
      (normalizeMessages praw.notificationMessage).map LoopAction.emitEvent ++
        LoopAction.setDeadline (calculateTerminationTime praw.currentTime
          praw.terminationTime env.nowAtPull) ::
        (match env.renewNet with
         | NetResult.ok r =>
             [LoopAction.setDeadline (calculateTerminationTime r.currentTime
               r.terminationTime env.nowAtRenew)]
         | NetResult.err _ => []) := by
  rcases hstart with ⟨hns, sub, hsub⟩ | ⟨hns, craw, hcr⟩
  · cases hre : env.renewNet with
    | ok r => simp [loopIteration, hns, loopPull, pullMessagesOp, hsub, hpull, renewOp, hre]
    | err e => simp [loopIteration, hns, loopPull, pullMessagesOp, hsub, hpull, renewOp, hre]
  · cases hre : env.renewNet with
    | ok r =>
        simp [loopIteration, hns, createOp, hcr, loopPull, pullMessagesOp, hpull,
          renewOp, hre]
    | err e =>
        simp [loopIteration, hns, createOp, hcr, loopPull, pullMessagesOp, hpull,
          renewOp, hre]

theorem claim_C6_witness :
    (loopIteration sampleActiveState sampleEnvTwoMsgs).2 =
      [LoopAction.emitEvent sampleMotionMsg, LoopAction.emitEvent sampleTamperMsg,
       LoopAction.setDeadline 120000] := by
  have h := claim_C6_emit_order sampleActiveState sampleEnvTwoMsgs
    { currentTime := 1000, terminationTime := 121000,
      notificationMessage := some (.many [sampleMotionMsg, sampleTamperMsg]) }
    rfl (Or.inl ⟨by decide, sampleSubscription, rfl⟩)
  rw [h]
  rfl

/-- C7: `pullMessages` with no active subscription fails with the
no-active-subscription error, surfaced to the direct caller as the
operation's result, and leaves the whole session state — in particular
the observed-category set — unchanged. -/
theorem claim_C7_pull_no_subscription (st : EventsState) (net : NetResult (Option PullRaw))
    (h : st.subscription = none) :
    pullMessagesOp st net = (.error .noActiveSubscription, st) ∧
    getObservedCategories (pullMessagesOp st net).2 = getObservedCategories st := by
  constructor
  · simp [pullMessagesOp, h]
  · simp [pullMessagesOp, h]

theorem claim_C7_witness :
    pullMessagesOp initialEventsState (NetResult.err { code := none }) =
      (.error .noActiveSubscription, initialEventsState) :=
  (claim_C7_pull_no_subscription initialEventsState (NetResult.err { code := none }) rfl).1

/-- C8: `unsubscribe` never raises: it always returns normally; with no
active subscription it is a no-op on the state, and with an active
subscription it discards any network failure and clears the local
subscription and deadline regardless of the request's outcome. -/
theorem claim_C8_unsubscribe_never_raises (st : EventsState) (net : NetResult Unit) :
    (∃ st2, unsubscribeOp st net = .ok st2) ∧
    (st.subscription = none → unsubscribeOp st net = .ok st) ∧
    (∀ sub, st.subscription = some sub →
       unsubscribeOp st net = .ok { st with subscription := none, terminationTime := none }) := by
  cases hsub : st.subscription with
  | none =>
      refine ⟨⟨st, by simp [unsubscribeOp, hsub]⟩, fun _ => by simp [unsubscribeOp, hsub], ?_⟩
      intro sub hcontra
      cases hcontra
  | some sub =>
      have hrun : unsubscribeOp st net =
          .ok { st with subscription := none, terminationTime := none } := by
        cases net <;> simp [unsubscribeOp, hsub]
      refine ⟨⟨_, hrun⟩, ?_, fun _ _ => hrun⟩
      intro hcontra
      cases hcontra

theorem claim_C8_witness :
    unsubscribeOp initialEventsState (NetResult.err { code := none }) =
        .ok initialEventsState ∧
      unsubscribeOp sampleActiveState (NetResult.err { code := none }) =
        .ok { sampleActiveState with subscription := none, terminationTime := none } :=
  ⟨(claim_C8_unsubscribe_never_raises initialEventsState
      (NetResult.err { code := none })).2.1 rfl,
   (claim_C8_unsubscribe_never_raises sampleActiveState
      (NetResult.err { code := none })).2.2 sampleSubscription rfl⟩

theorem foldl_motionData_eq (items : List SimpleItem) (acc : Bool) :
    items.foldl motionDataStep acc = items.foldl (boolOverwriteStep motionFlagName) acc := by
  have h : motionDataStep = boolOverwriteStep motionFlagName := by
    funext a i
    exact motionDataStep_eq a i
  rw [h]

/-- C9: on a motion-classified message, `isMotion` is determined by the
data simple items named (case-insensitively) `IsMotion` or `State`: the
governing item's value counts as true iff it equals boolean `true`,
`"true"` or `"1"`; any other value — `"0"` included — or the absence of
such an item yields `false`; a message of any other category (or with no
or an empty topic) yields `none`, not an error. -/
theorem claim_C9_motion_extractor (m : NotificationMessage) :
    (m.topic = none → parseMotionEvent m = none) ∧
    (∀ t, m.topic = some t → t ≠ "" → categorizeEvent t ≠ .motion →
       parseMotionEvent m = none) ∧
    (∀ t, m.topic = some t → t ≠ "" → categorizeEvent t = .motion →
       (parseMotionEvent m).map (fun r => r.isMotion) =
         some (match lastMatch motionFlagName (msgDataItems m) with
               | some j => isTruthy j.value
               | none => false)) ∧
    (∀ v, isTruthy v = true ↔
       (v = JsValue.bool true ∨ v = .str "true" ∨ v = .str "1")) := by
  refine ⟨?_, ?_, ?_, ?_⟩
  · intro h
    simp [parseMotionEvent, h]
  · intro t ht hne hcat
    simp [parseMotionEvent, ht, hne, hcat]
  · intro t ht hne hcat
    have hcc : ¬(categorizeEvent t ≠ EventCategory.motion) := by simp [hcat]
    simp only [parseMotionEvent, ht, if_neg hne, if_neg hcc, Option.map_some']
    rw [foldl_motionData_eq, foldl_boolOverwriteStep]
  · intro v
    cases v with
    | bool b => cases b <;> simp [isTruthy]
    | str s => simp [isTruthy]

theorem claim_C9_witness :
    (parseMotionEvent sampleMotionMsg).map (fun r => r.isMotion) = some true ∧
    parseMotionEvent sampleAudioMsg = none := by
  constructor
  · have h := (claim_C9_motion_extractor sampleMotionMsg).2.2.1
      "tns1:RuleEngine/CellMotionDetector/Motion" rfl (by decide) (by decide)
    rw [h]
    rfl
  · exact (claim_C9_motion_extractor sampleAudioMsg).2.1
      "tns1:AudioAnalytics/Audio/DetectedSound" rfl (by decide) (by decide)

/-- C10: the category `unknown` is never inserted into the observed set: a
message with no topic or an `unknown`-classified topic leaves the set
unchanged, `pullMessages` and the loop iteration preserve
`unknown ∉ observed`, the constructor starts the set empty, and
`getObservedCategories` returns exactly the stored set — so every element
it ever returns differs from `unknown`. -/
theorem claim_C10_unknown_never_observed :
    EventCategory.unknown ∉ getObservedCategories initialEventsState ∧
    (∀ st : EventsState, getObservedCategories st = st.observedCategories) ∧
    (∀ (s : List EventCategory) (m : NotificationMessage),
       m.topic = none → trackMessage s m = s) ∧
    (∀ (s : List EventCategory) (m : NotificationMessage) (t : String),
       m.topic = some t → categorizeEvent t = .unknown → trackMessage s m = s) ∧
    (∀ (st : EventsState) (net : NetResult (Option PullRaw)),
       EventCategory.unknown ∉ getObservedCategories st →
       EventCategory.unknown ∉ getObservedCategories (pullMessagesOp st net).2) ∧
    (∀ (st : EventsState) (env : LoopEnv),
       EventCategory.unknown ∉ getObservedCategories st →
       EventCategory.unknown ∉ getObservedCategories (loopIteration st env).1) := by
  refine ⟨by simp [getObservedCategories, initialEventsState], fun st => rfl, ?_, ?_, ?_, ?_⟩
  · intro s m h
    simp [trackMessage, h]
  · intro s m t ht hcat
    by_cases hne : t = ""
    · simp [trackMessage, ht, hne]
    · simp [trackMessage, ht, hne, hcat]
  · intro st net h
    exact pullMessagesOp_no_unknown st net h
  · intro st env h
    exact loopIteration_no_unknown st env h

theorem claim_C10_witness :
    EventCategory.unknown ∉
      getObservedCategories (loopIteration sampleActiveState sampleEnvTwoMsgs).1 :=
  claim_C10_unknown_never_observed.2.2.2.2.2 sampleActiveState sampleEnvTwoMsgs
    (by decide)

end Onvif
